import Mathlib

/-!
# Verification of the benthic carbon-flux visualisation pipeline

Shallow embedding of the flux-graph construction and edge-styling logic of
`benthic_ERSEM_L4_BECS.ipynb` (detailed and simplified ERSEM benthic model
visualisation for the WCO L4 station).

Modelling conventions:
* numeric series values are embedded as rationals (`ℚ`), standing for the
  notebook's real-valued flux magnitudes;
* a pandas `DataFrame` indexed by timestamps is a list of
  `(Timestamp, row)` pairs in declaration order;
* Python strings (edge codes) are lists of characters, so that slicing
  `s[0:2]` / `s[2:]` becomes `List.take 2` / `List.drop 2`;
* a pandas `Series` of per-column means (`dfm`) is an association list from
  column name to mean value, in table-declaration order;
* numpy arrays (such as `maxw.values`) are lists of rationals, and the
  Python built-ins `min` / `max` applied to a float and an array force
  `bool(...)` of the elementwise comparison, which succeeds only on a
  single-element array and raises `ValueError` otherwise; likewise
  `.item()` converts only a size-1 array to a scalar.  These partial
  scalar-collapse semantics are embedded with `Except`.
-/

/-- A timestamp of the dataset's time axis: the calendar year together with
an ordinal position inside the year (the year filter `df.index.year == y`
only ever inspects the year). -/
structure Timestamp where
  year : Int
  ordinal : Nat
deriving DecidableEq

/-- A time-indexed table (`pd.DataFrame`): rows in declaration order. -/
abbrev Table (α : Type) := List (Timestamp × α)

/-- Year filtering, `df = df[df.index.year == y]`
(notebook, detailed pipeline: `df=df[df.index.year==2016]`,
`dv=dv[dv.index.year==2016]`; same for the simplified pipeline). -/
def filterYear {α : Type} (y : Int) (tbl : Table α) : Table α :=
  tbl.filter (fun row => row.1.year == y)

/-- The error taxonomy named by the spec (§7).  None of these errors is
raised anywhere in the notebook; the type exists to state the spec-side
checked variants that the code is compared against. -/
inductive PipelineError where
  | malformedEdgeCode
  | emptyWindow
deriving DecidableEq

/-- Follows the spec's words (§4.4 / §7): year filtering
"fails with `EmptyWindowError` if zero rows match".  Spec-side checked
variant, to be compared with the source's `filterYear`. -/
def filterYearSpec {α : Type} (y : Int) (tbl : Table α) :
    Except PipelineError (Table α) :=
  if (filterYear y tbl).isEmpty then Except.error PipelineError.emptyWindow
  else Except.ok (filterYear y tbl)

/-- Edge-code split, `flo=fl[0:2];fli=fl[2:]` (notebook, edge loop of both
pipelines).  Python slicing is total: out-of-range bounds are silently
truncated. -/
def splitEdgeCode (code : List Char) : List Char × List Char :=
  (code.take 2, code.drop 2)

/-- Follows the spec's words (§4.5 step 1 / §7): the split is fixed-width
and "fails with `MalformedEdgeCodeError` if the code is not exactly 4
characters".  Spec-side checked variant, to be compared with the source's
`splitEdgeCode`. -/
def splitEdgeCodeSpec (code : List Char) :
    Except PipelineError (List Char × List Char) :=
  if code.length = 4 then Except.ok (code.take 2, code.drop 2)
  else Except.error PipelineError.malformedEdgeCode

/-- The three visual-significance tiers.  The notebook names them in the
comments of the edge loop: "Blue for negligible fluxes", "Red for minor
fluxes", "Semi-transparent black for significant fluxes". -/
inductive Tier where
  | negligible
  | minor
  | significant
deriving DecidableEq

/-- The styling computed for one edge: tier, display colour and pen
width. -/
structure EdgeStyle where
  tier : Tier
  color : String
  penwidth : ℚ
deriving DecidableEq

/-- The significant-branch pen width,
`nnvalue = max(0.5, min(10., nvalue))` with `nvalue = value * (x / maxwidth)`
and `x = 10` (notebook, edge loop). -/
def significantWidth (value maxMeanFlux : ℚ) : ℚ :=
  max 0.5 (min 10 (value * (10 / maxMeanFlux)))

/-- `clamp(x, lo, hi)` as the spec writes the width formula:
bound `x` below by `lo` and above by `hi`. -/
def clamp (x lo hi : ℚ) : ℚ := max lo (min hi x)

/-- The tier classification of the edge loop (notebook, both pipelines),
with a scalar maximum mean flux:

```
if dfm[fl]<1e-5:   col="#0066CC"; nnvalue=0.5
elif dfm[fl]<0.2:  col="#CC0000"; nnvalue=0.5
else:              col="#000000B0"; nnvalue=max(0.5, min(10., nvalue))
```
-/
def classifyEdge (value maxMeanFlux : ℚ) : EdgeStyle :=
  if value < 1e-5 then
    { tier := Tier.negligible, color := "#0066CC", penwidth := 0.5 }
  else if value < 0.2 then
    { tier := Tier.minor, color := "#CC0000", penwidth := 0.5 }
  else
    { tier := Tier.significant, color := "#000000B0",
      penwidth := significantWidth value maxMeanFlux }

/-- A time series of flux values, one rational per timestamp. -/
abbrev Series := Timestamp → ℚ

/-- The raw dataset variables that feed the deposit-feeder (`Y2`) columns of
the detailed-variant flux table (notebook, flux table builder cell). -/
structure DetailedDataset where
  Y2_fprey1c : Series
  Y2_fprey2c : Series
  Y2_fprey3c : Series
  Y2_fprey4c : Series
  Y2_fYQPc : Series

/-- The deposit-feeder columns of the detailed-variant flux table. -/
structure Y2Columns where
  H1Y2 : Series
  H2Y2 : Series
  Q6Y2 : Series
  Y4Y2 : Series
  Y2Q6 : Series

/-- The deposit-feeder part of the detailed flux table builder
(notebook, flux table builder cell):

```
df['H1Y2']=xd.Y2_fprey1c.values.squeeze()
df['H2Y2']=xd.Y2_fprey2c.values.squeeze()
df['Q6Y2']=xd.Y2_fprey3c.values.squeeze()
df['Y4Y2']=xd.Y2_fprey4c.values.squeeze()
df['Y2Q6']=xd.Y2_fYQPc.values.squeeze()+df.Q6Y2*0.8+0.35*(df.H1Y2+df.H2Y2+df.Y4Y2)
```

The `let`-bound names stand for the columns already populated in `df` at
the moment `Y2Q6` is computed. -/
def buildY2Columns (xd : DetailedDataset) : Y2Columns :=
  let H1Y2 : Series := xd.Y2_fprey1c
  let H2Y2 : Series := xd.Y2_fprey2c
  let Q6Y2 : Series := xd.Y2_fprey3c
  let Y4Y2 : Series := xd.Y2_fprey4c
  { H1Y2 := H1Y2, H2Y2 := H2Y2, Q6Y2 := Q6Y2, Y4Y2 := Y4Y2,
    Y2Q6 := fun t =>
      xd.Y2_fYQPc t + Q6Y2 t * 0.8 + 0.35 * (H1Y2 t + H2Y2 t + Y4Y2 t) }

/-- `dfm.max()`: the maximum of a mean-flux vector, represented as an
association list from column name to mean value in declaration order
(pandas returns NaN on an empty vector; the empty case is unreachable and
defaulted to `0`). -/
def seriesMax : List (String × ℚ) → ℚ
  | [] => 0
  | p :: ps => ps.foldl (fun m q => max m q.2) p.2

/-- `maxw = dfm[dfm==dfm.max()]` (notebook, max flux identification):
the sub-vector of all columns tied for the maximum mean flux, in
table-declaration order. -/
def maxFluxEntries (dfm : List (String × ℚ)) : List (String × ℚ) :=
  dfm.filter (fun p => p.2 == seriesMax dfm)

/-- `maxwidth = maxw.values` (notebook, edge-style cell): the numpy array
of the tied maximal values — one entry per tied column, not a scalar. -/
def maxwidthValues (dfm : List (String × ℚ)) : List ℚ :=
  (maxFluxEntries dfm).map Prod.snd

/-- `nvalue = value * (x / maxwidth)` with `x = 10`: numpy broadcasting of
the scalar `value` against the `maxwidth` array yields one entry per tied
maximum. -/
def nvalueArr (value : ℚ) (maxwidth : List ℚ) : List ℚ :=
  maxwidth.map (fun m => value * (10 / m))

/-- `nnvalue = max(0.5, min(10., nvalue))` followed by the
`nnvalue.item()` scalar conversion, for an array-valued `nvalue`:
the Python built-in `min` of a float and a numpy array forces
`bool(nvalue < 10.)`, which succeeds only when the comparison array has
exactly one element and raises `ValueError` otherwise (and `.item()`
likewise converts only a size-1 array). -/
def scalarClamp (nvalue : List ℚ) : Except String ℚ :=
  match nvalue with
  | [w] => Except.ok (max 0.5 (min 10 w))
  | _ => Except.error "ValueError"

/-- The pen-width computation of the edge loop for one edge, with the
array-valued `maxwidth` actually used by the notebook
(`maxwidth = maxw.values`):

```
nvalue = value * (x / maxwidth)
if value < 1e-5:  nnvalue = 0.5
elif value < 0.2: nnvalue = 0.5
else:             nnvalue = max(0.5, min(10., nvalue))
if nnvalue.ndim > 0: nnvalue = nnvalue.item()
```

In the first two branches `nnvalue` is already the scalar `0.5`; only the
significant branch touches the array. -/
def edgePenwidth (value : ℚ) (maxwidth : List ℚ) : Except String ℚ :=
  if value < 1e-5 then Except.ok 0.5
  else if value < 0.2 then Except.ok 0.5
  else scalarClamp (nvalueArr value maxwidth)

/-- C1: for every mean flux value `v` and every `MaxMeanFlux > 0`, the edge
classifier assigns, in this fixed order of precedence: if `v < 1e-5` the
tier is negligible with fixed blue colour and pen width exactly `0.5`;
else if `v < 0.2` the tier is minor with fixed red colour and pen width
exactly `0.5`; else (`v ≥ 0.2`) the tier is significant with
semi-transparent dark colour and pen width
`clamp(v * (10 / MaxMeanFlux), 0.5, 10.0)`. -/
theorem classifyEdge_tiers (v M : ℚ) (hM : 0 < M) :
    (v < 1e-5 →
      classifyEdge v M =
        { tier := Tier.negligible, color := "#0066CC", penwidth := 0.5 }) ∧
    (1e-5 ≤ v → v < 0.2 →
      classifyEdge v M =
        { tier := Tier.minor, color := "#CC0000", penwidth := 0.5 }) ∧
    (0.2 ≤ v →
      classifyEdge v M =
        { tier := Tier.significant, color := "#000000B0",
          penwidth := clamp (v * (10 / M)) 0.5 10 }) := by
  refine ⟨fun h1 => ?_, fun h1 h2 => ?_, fun h1 => ?_⟩
  · unfold classifyEdge
    rw [if_pos h1]
  · unfold classifyEdge
    rw [if_neg (not_lt.mpr h1), if_pos h2]
  · have hv : (1e-5 : ℚ) ≤ v := le_trans (by norm_num) h1
    unfold classifyEdge
    rw [if_neg (not_lt.mpr hv), if_neg (not_lt.mpr h1)]
    rfl

/-- Witness for C1 at `v = 0.3`, `MaxMeanFlux = 4`. -/
theorem classifyEdge_tiers_witness :
    (0 : ℚ) < 4 ∧
    (((0.3 : ℚ) < 1e-5 →
      classifyEdge 0.3 4 =
        { tier := Tier.negligible, color := "#0066CC", penwidth := 0.5 }) ∧
    ((1e-5 : ℚ) ≤ 0.3 → (0.3 : ℚ) < 0.2 →
      classifyEdge 0.3 4 =
        { tier := Tier.minor, color := "#CC0000", penwidth := 0.5 }) ∧
    ((0.2 : ℚ) ≤ 0.3 →
      classifyEdge 0.3 4 =
        { tier := Tier.significant, color := "#000000B0",
          penwidth := clamp (0.3 * (10 / 4)) 0.5 10 })) :=
  ⟨by norm_num, classifyEdge_tiers 0.3 4 (by norm_num)⟩

/-- C2 counterexample: the renderer's edge-code split does not fail on a
code whose length is not 4.  On the 5-character code `"H1Y2Z"` the source's
split returns the well-formed pair `("H1", "Y2Z")`, whereas the spec-side
checked split demands a `MalformedEdgeCodeError`. -/
theorem splitEdgeCode_five_chars :
    splitEdgeCode ['H', '1', 'Y', '2', 'Z'] = (['H', '1'], ['Y', '2', 'Z']) ∧
    splitEdgeCodeSpec ['H', '1', 'Y', '2', 'Z'] =
      Except.error PipelineError.malformedEdgeCode :=
  ⟨rfl, rfl⟩

/-- C2 (amended): for every edge code of length exactly 4, the split yields
a 2-character source and a 2-character destination whose concatenation is
the original code; codes of other lengths do not raise any error (see the
counterexample and C10). -/
theorem splitEdgeCode_fourChar (code : List Char) (h : code.length = 4) :
    (splitEdgeCode code).1.length = 2 ∧ (splitEdgeCode code).2.length = 2 ∧
    (splitEdgeCode code).1 ++ (splitEdgeCode code).2 = code := by
  unfold splitEdgeCode
  refine ⟨?_, ?_, List.take_append_drop 2 code⟩
  · rw [List.length_take, h]
    decide
  · rw [List.length_drop, h]

/-- Witness for C2 (amended) at the code `"H1Y2"`. -/
theorem splitEdgeCode_fourChar_witness :
    (['H', '1', 'Y', '2'] : List Char).length = 4 ∧
    ((splitEdgeCode ['H', '1', 'Y', '2']).1.length = 2 ∧
     (splitEdgeCode ['H', '1', 'Y', '2']).2.length = 2 ∧
     (splitEdgeCode ['H', '1', 'Y', '2']).1 ++ (splitEdgeCode ['H', '1', 'Y', '2']).2 =
       ['H', '1', 'Y', '2']) :=
  ⟨rfl, splitEdgeCode_fourChar ['H', '1', 'Y', '2'] rfl⟩

/-- C3: in the detailed-variant flux table, for every timestamp, the derived
deposit-feeder return column `Y2Q6` equals
`Y2_fYQPc + 0.8 * Q6Y2 + 0.35 * (H1Y2 + H2Y2 + Y4Y2)` element-wise, where
`Q6Y2`, `H1Y2`, `H2Y2`, `Y4Y2` are the already-populated columns of the
same table. -/
theorem buildY2Columns_Y2Q6 (xd : DetailedDataset) (t : Timestamp) :
    (buildY2Columns xd).Y2Q6 t =
      xd.Y2_fYQPc t + 0.8 * (buildY2Columns xd).Q6Y2 t +
        0.35 * ((buildY2Columns xd).H1Y2 t + (buildY2Columns xd).H2Y2 t +
          (buildY2Columns xd).Y4Y2 t) := by
  simp only [buildY2Columns]
  ring

/-- C4 counterexample: on a table whose only row lies in year 2015, the
source's year filter for 2016 returns the empty table and does not fail,
whereas the spec-side checked filter demands an `EmptyWindowError`. -/
theorem filterYear_empty_no_failure :
    filterYear 2016 [({ year := 2015, ordinal := 0 }, (1 : ℚ))] = [] ∧
    filterYearSpec 2016 [({ year := 2015, ordinal := 0 }, (1 : ℚ))] =
      Except.error PipelineError.emptyWindow :=
  ⟨rfl, rfl⟩

/-- C4 (amended): the year-filtering step never fails; it returns the empty
table exactly when zero rows of the input have a timestamp within the
target year. -/
theorem filterYear_empty_iff {α : Type} (y : Int) (tbl : Table α) :
    filterYear y tbl = [] ↔ ∀ row ∈ tbl, row.1.year ≠ y := by
  unfold filterYear
  rw [List.filter_eq_nil_iff]
  constructor
  · intro h row hrow
    simpa using h row hrow
  · intro h row hrow
    simpa using h row hrow

/-- C5 (code evaluated at the failing input): on the mean-flux vector
`[("AB", 1), ("CD", 1)]`, in which two columns are tied for the maximum,
`maxw = dfm[dfm == dfm.max()]` does report both tied columns, but the
downstream normalisation receives the two-element array
`maxwidth = maxw.values`, and the significant-branch pen-width computation
`max(0.5, min(10., value * (10 / maxwidth)))` raises a `ValueError` instead
of behaving like the no-tie case. -/
theorem maxFluxTie_valueError :
    maxFluxEntries [("AB", (1 : ℚ)), ("CD", 1)] = [("AB", 1), ("CD", 1)] ∧
    edgePenwidth 1 (maxwidthValues [("AB", (1 : ℚ)), ("CD", 1)]) =
      Except.error "ValueError" := by
  constructor
  · decide
  · have hmw : maxwidthValues [("AB", (1 : ℚ)), ("CD", 1)] = [1, 1] := by decide
    unfold edgePenwidth
    rw [if_neg (by norm_num), if_neg (by norm_num), hmw]
    rfl

/-- C6: for every Max Mean Flux `M > 0`, feeding `M` itself through the
significant-tier pen-width formula yields pen width exactly `10`:
`clamp(M * (10 / M), 0.5, 10.0) = 10.0`. -/
theorem significantWidth_roundtrip (M : ℚ) (hM : 0 < M) :
    significantWidth M M = 10 := by
  have hM0 : M ≠ 0 := ne_of_gt hM
  unfold significantWidth
  have h : M * (10 / M) = 10 := by field_simp
  rw [h]
  norm_num

/-- Witness for C6 at `M = 7`. -/
theorem significantWidth_roundtrip_witness :
    (0 : ℚ) < 7 ∧ significantWidth 7 7 = 10 :=
  ⟨by norm_num, significantWidth_roundtrip 7 (by norm_num)⟩

/-- C7: for every fixed `MaxMeanFlux > 0` and every pair of mean flux values
`v1 ≤ v2` with `v1, v2 ≥ 0.2`, the significant-tier pen width of `v1` is at
most that of `v2` (monotonically non-decreasing in the flux value). -/
theorem significantWidth_mono (v1 v2 M : ℚ) (hM : 0 < M) (h1 : 0.2 ≤ v1)
    (h2 : 0.2 ≤ v2) (h12 : v1 ≤ v2) :
    significantWidth v1 M ≤ significantWidth v2 M := by
  unfold significantWidth
  have hc : (0 : ℚ) ≤ 10 / M := by positivity
  exact max_le_max le_rfl (min_le_min le_rfl (mul_le_mul_of_nonneg_right h12 hc))

/-- Witness for C7 at `v1 = 1`, `v2 = 2`, `MaxMeanFlux = 5`. -/
theorem significantWidth_mono_witness :
    (0 : ℚ) < 5 ∧ (0.2 : ℚ) ≤ 1 ∧ (0.2 : ℚ) ≤ 2 ∧ (1 : ℚ) ≤ 2 ∧
    significantWidth 1 5 ≤ significantWidth 2 5 :=
  ⟨by norm_num, by norm_num, by norm_num, by norm_num,
    significantWidth_mono 1 2 5 (by norm_num) (by norm_num) (by norm_num) (by norm_num)⟩

/-- C8: temporal year-filtering is idempotent — filtering an
already-year-filtered table again to the same year returns the table
unchanged. -/
theorem filterYear_idempotent {α : Type} (y : Int) (tbl : Table α) :
    filterYear y (filterYear y tbl) = filterYear y tbl := by
  unfold filterYear
  rw [List.filter_filter]
  simp

/-- C9: for every mean flux value `v` and every `MaxMeanFlux > 0`, the pen
width assigned to the rendered edge lies within the visual weight range
`[0.5, 10.0]`, regardless of tier. -/
theorem classifyEdge_penwidth_range (v M : ℚ) (hM : 0 < M) :
    0.5 ≤ (classifyEdge v M).penwidth ∧ (classifyEdge v M).penwidth ≤ 10 := by
  unfold classifyEdge significantWidth
  split
  · norm_num
  · split
    · norm_num
    · refine ⟨le_max_left _ _, max_le (by norm_num) (min_le_left _ _)⟩

/-- Witness for C9 at `v = 0.3`, `MaxMeanFlux = 2`. -/
theorem classifyEdge_penwidth_range_witness :
    (0 : ℚ) < 2 ∧
    (0.5 ≤ (classifyEdge 0.3 2).penwidth ∧ (classifyEdge 0.3 2).penwidth ≤ 10) :=
  ⟨by norm_num, classifyEdge_penwidth_range 0.3 2 (by norm_num)⟩

/-- C10: for every edge code string of any length, the split operation is
total: the source is the first `min 2 (length code)` characters, the
destination is the entire remainder, and concatenating source and
destination reconstructs the code exactly (so a 5-character code silently
yields a 3-character destination rather than an error). -/
theorem splitEdgeCode_totality (code : List Char) :
    (splitEdgeCode code).1 = code.take 2 ∧
    (splitEdgeCode code).2 = code.drop 2 ∧
    (splitEdgeCode code).1.length = min 2 code.length ∧
    (splitEdgeCode code).1 ++ (splitEdgeCode code).2 = code ∧
    (splitEdgeCode code).2.length = code.length - 2 :=
  ⟨rfl, rfl, List.length_take 2 code, List.take_append_drop 2 code,
    List.length_drop 2 code⟩
